import Mathlib

/-!
Verification development for the concretization and ABI-splicing engine
described in spec.md.  The repository sources available here contain the
behavioural test suite (lib/spack/spack/test/abi_splicing.py); the engine
itself (Spec model, Concretizer, Splice Engine) is not part of the source
tree, so the definitions below are modelled from the specification text and
exercised on the scenarios of the test suite.
-/

/-- Modelled from the spec: tagged variant values (booleans, enums or string
values) carried by a package node; the spec's "Dynamic attribute dispatch on
variants ... a tagged-value enum per variant". -/
inductive VVal where
  | bool (v : Bool)
  | str (v : String)
deriving DecidableEq, Repr

/-- Modelled from the spec: a dependency-type set, "a subset of
{build, link, run, test}". -/
structure DepTypes where
  build : Bool
  link : Bool
  run : Bool
  test : Bool
deriving DecidableEq, Repr

/-- Build-only dependency-type set. -/
def dtB : DepTypes := ⟨true, false, false, false⟩

/-- Link-only dependency-type set. -/
def dtL : DepTypes := ⟨false, true, false, false⟩

/-- True when the dependency-type set is exactly {build}. -/
def buildOnly (t : DepTypes) : Bool :=
  t.build && !t.link && !t.run && !t.test

/-- Modelled from the spec: the identity attributes of a concrete node
(package name, exact version, variant assignment). -/
structure NodeId where
  name : String
  version : List Nat
  variants : List (String × VVal)
deriving DecidableEq, Repr

/-- Modelled from the spec: an abstract requirement on one node of a request
(name, optional version constraint, required variant values).  A version
constraint is a version whose components must lead the resolved version, the
way a request such as h at 1 is satisfied by 1.0.2. -/
structure NodeReq where
  name : String
  version : Option (List Nat)
  variants : List (String × VVal)
deriving DecidableEq, Repr

/-- Modelled from the spec: an abstract Spec, a root requirement plus
requirements on nodes of its dependency closure. -/
structure ASpec where
  root : NodeReq
  deps : List NodeReq
deriving DecidableEq, Repr

/-- Version v begins with pattern p (component-wise). -/
def verBegins : List Nat → List Nat → Bool
  | _, [] => true
  | [], _ :: _ => false
  | a :: as, b :: bs => a == b && verBegins as bs

/-- Version satisfies an optional version constraint. -/
def verOk (v : List Nat) : Option (List Nat) → Bool
  | none => true
  | some p => verBegins v p

/-- Strict lexicographic order on versions. -/
def verLT : List Nat → List Nat → Bool
  | [], [] => false
  | [], _ :: _ => true
  | _ :: _, [] => false
  | a :: as, b :: bs => a < b || (a == b && verLT as bs)

/-- First value assigned to a variant name. -/
def lookupVar (k : String) : List (String × VVal) → Option VVal
  | [] => none
  | (k2, v) :: rest => if k == k2 then some v else lookupVar k rest

/-- Modelled from the spec: one concrete node satisfies one abstract node
requirement (name, version range, required variants). -/
def nodeSat (i : NodeId) (r : NodeReq) : Bool :=
  i.name == r.name && verOk i.version r.version &&
    r.variants.all fun kv => lookupVar kv.1 i.variants == some kv.2

mutual
/-- Modelled from the spec: a concrete Spec, a rooted DAG of nodes each
carrying identity attributes, typed dependency edges and an optional
build-spec provenance pointer ("what this node was originally resolved to
before any splice was applied"). -/
inductive CSpec : Type where
  | node (nid : NodeId) (deps : Edges) (bspec : OSpec)
/-- Modelled from the spec: the dependency edges of a node, each carrying a
dependency-type set, an optional virtual-interface name and the child node. -/
inductive Edges : Type where
  | nil
  | cons (types : DepTypes) (virt : Option String) (child : CSpec) (rest : Edges)
/-- Optional provenance pointer of a node. -/
inductive OSpec : Type where
  | none
  | some (s : CSpec)
end

/-- Identity attributes of a concrete node. -/
def CSpec.nid : CSpec → NodeId
  | .node i _ _ => i

/-- Dependency edges of a concrete node. -/
def CSpec.edges : CSpec → Edges
  | .node _ e _ => e

/-- Provenance pointer of a concrete node. -/
def CSpec.bspec : CSpec → OSpec
  | .node _ _ b => b

/-- Whether a provenance pointer is set. -/
def OSpec.isSet : OSpec → Bool
  | .none => false
  | .some _ => true

/-- Package name of a concrete node. -/
def nodeName (c : CSpec) : String := c.nid.name

mutual
/-- Modelled from the spec: the closure of a concrete Spec, the root node
plus every node reachable through dependency edges (provenance pointers are
not part of the live graph). -/
def nodesOf : CSpec → List CSpec
  | .node i es b => CSpec.node i es b :: nodesOfE es
def nodesOfE : Edges → List CSpec
  | .nil => []
  | .cons _ _ c rest => nodesOf c ++ nodesOfE rest
end

/-- Modelled from the spec: "does concrete Spec A satisfy abstract Spec B":
the root satisfies the root requirement and every dependency requirement is
satisfied by some node of the closure. -/
def satisfies (c : CSpec) (a : ASpec) : Bool :=
  nodeSat c.nid a.root &&
    a.deps.all fun r => (nodesOf c).any fun n => nodeSat n.nid r

mutual
/-- Structural equality of concrete Specs (provenance included). -/
def specBeq : CSpec → CSpec → Bool
  | .node i1 e1 b1, .node i2 e2 b2 => i1 == i2 && edgesBeq e1 e2 && ospecBeq b1 b2
def edgesBeq : Edges → Edges → Bool
  | .nil, .nil => true
  | .cons t1 v1 c1 r1, .cons t2 v2 c2 r2 =>
      t1 == t2 && v1 == v2 && specBeq c1 c2 && edgesBeq r1 r2
  | _, _ => false
def ospecBeq : OSpec → OSpec → Bool
  | .none, .none => true
  | .some s1, .some s2 => specBeq s1 s2
  | _, _ => false
end

mutual
/-- Modelled from the spec: the content digest of a node, "computed over the
node's identity attributes and, recursively, over the hashes of all its
dependency nodes"; provenance pointers are excluded ("interchangeable for
all purposes except explicit provenance tracking").  The digest is modelled
as the provenance-erased content itself, a collision-free digest. -/
def specHash : CSpec → CSpec
  | .node i es _ => .node i (hashE es) .none
def hashE : Edges → Edges
  | .nil => .nil
  | .cons t v c rest => .cons t v (specHash c) (hashE rest)
end

mutual
/-- Whether a node with the given name occurs in the subtree. -/
def hasNode (nm : String) : CSpec → Bool
  | .node i es _ => i.name == nm || edgesHaveNode nm es
def edgesHaveNode (nm : String) : Edges → Bool
  | .nil => false
  | .cons _ _ c rest => hasNode nm c || edgesHaveNode nm rest
end

mutual
/-- Modelled from the spec: the splice rewrite, bottom-up over the path from
the substitution site (every node named nm) to the root.  A node whose
subtree contains the site is rewritten: its edges whose dependency-type set
is exactly {build} are dropped, edges to the site now reference the
replacement, other on-path children are rewritten recursively, and a
build-spec pointer to the pre-splice subtree is attached unless one is
already set (provenance is read-only once set).  Nodes off the path, and the
replacement's own subtree, are reused unchanged. -/
def splice (nm : String) (rep : CSpec) (c : CSpec) : CSpec :=
  match c with
  | .node i es b =>
    if edgesHaveNode nm es then
      CSpec.node i (spliceEdges nm rep es)
        (match b with
         | .some prev => .some prev
         | .none => .some (CSpec.node i es b))
    else CSpec.node i es b
def spliceEdges (nm : String) (rep : CSpec) : Edges → Edges
  | .nil => .nil
  | .cons t v c rest =>
    if buildOnly t then spliceEdges nm rep rest
    else
      .cons t v (if nodeName c == nm then rep else splice nm rep c)
        (spliceEdges nm rep rest)
end

/-- No edge of the list has dependency-type set exactly {build}. -/
def noBuildOnlyE : Edges → Bool
  | .nil => true
  | .cons t _ _ rest => !buildOnly t && noBuildOnlyE rest

mutual
/-- Build-pruning invariant: every node carrying a build-spec pointer (a
node rewritten by a splice) has no build-only dependency edge. -/
def goodS : CSpec → Bool
  | .node _ es b => (!(OSpec.isSet b) || noBuildOnlyE es) && goodE es
def goodE : Edges → Bool
  | .nil => true
  | .cons _ _ c rest => goodS c && goodE rest
end

/-- Names of direct children reached through an edge carrying the build
flag (the test suite's has-build-dependency check). -/
def topBuildDeps : Edges → List String
  | .nil => []
  | .cons t _ c rest =>
      if t.build then nodeName c :: topBuildDeps rest else topBuildDeps rest

/-- Number of direct dependency edges carrying the build flag. -/
def countBuildFlag : Edges → Nat
  | .nil => 0
  | .cons t _ _ rest => (if t.build then 1 else 0) + countBuildFlag rest

/-- Names of direct children reached at link or run time. -/
def linkRunNames : Edges → List String
  | .nil => []
  | .cons t _ c rest =>
      if t.link || t.run then nodeName c :: linkRunNames rest
      else linkRunNames rest

/-- First node of the closure with the given package name. -/
def findNode (c : CSpec) (nm : String) : Option CSpec :=
  (nodesOf c).find? fun n => nodeName n == nm

/-- Modelled from the spec: a declared variant of a package (name and
default value), part of the Metadata Adapter's variant domain. -/
structure VariantDecl where
  name : String
  dflt : VVal
deriving DecidableEq, Repr

/-- Modelled from the spec: one declared dependency of a package: a
dependency-type set, an optional virtual-interface name (in which case the
provider is chosen at resolution time) and otherwise the literal package
name. -/
structure DepDecl where
  types : DepTypes
  virt : Option String
  pkg : String
deriving DecidableEq, Repr

/-- Modelled from the spec: a splice-eligibility declaration
(replacement-constraint, when-constraint, matched-variant-selector).  The
target constraint matches the node being replaced, the when-constraint
(version plus variants, on the declaring package itself) matches the
replacement, following the orientation of the test suite's can-splice
comments; the matched-variant-selector is the sentinel "all" (none here) or
an explicit set of variant names. -/
structure SpliceRule where
  target : NodeReq
  whenVersion : Option (List Nat)
  whenVariants : List (String × VVal)
  matchVariants : Option (List String)
deriving DecidableEq, Repr

/-- Modelled from the spec: the package metadata visible through the
Metadata Adapter: version list, variant domain, dependency declarations,
provided virtual interfaces and splice-eligibility declarations. -/
structure PkgDecl where
  name : String
  versions : List (List Nat)
  variants : List VariantDecl
  deps : List DepDecl
  provides : List String
  rules : List SpliceRule
deriving DecidableEq, Repr

/-- Package metadata for a name. -/
def findPkg (repo : List PkgDecl) (nm : String) : Option PkgDecl :=
  repo.find? fun p => p.name == nm

/-- Whether a package provides a virtual interface. -/
def providesV (repo : List PkgDecl) (nm v : String) : Bool :=
  match findPkg repo nm with
  | some p => p.provides.contains v
  | none => false

/-- Default provider of a virtual interface: the first declaring package. -/
def defaultProvider (repo : List PkgDecl) (v : String) : Option String :=
  (repo.find? fun p => p.provides.contains v).map fun p => p.name

/-- Modelled from the spec: the per-package policy record of the Concretizer
(reuse toggle, buildable flags, declared externals, automatic splicing). -/
structure Policy where
  reuse : Bool
  nonBuildable : List String
  externals : List CSpec
  spliceAuto : Bool

/-- Modelled from the spec: the error taxonomy surfaced by resolution. -/
inductive SpackError where
  | UnsatisfiableSpecError
  | SpliceError
deriving DecidableEq, Repr

/-- Highest version of the domain satisfying a predicate. -/
def bestVersion (vs : List (List Nat)) (ok : List Nat → Bool) : Option (List Nat) :=
  (vs.filter ok).foldl
    (fun acc v =>
      match acc with
      | none => some v
      | some w => if verLT w v then some v else some w)
    none

/-- Variant assignment for a fresh build: the first requested value for each
declared variant, the declared default otherwise. -/
def chooseVariants (decls : List VariantDecl) (reqs : List NodeReq) :
    List (String × VVal) :=
  decls.map fun d =>
    (d.name, ((reqs.findSome? fun r => lookupVar d.name r.variants).getD d.dflt))

/-- Modelled from the spec: building a list of dependency subtrees from
scratch out of package metadata (the solver's build-from-scratch assignment,
absent from the sources here): pick for every node the highest version
allowed by the applicable requirements, assign variants from requirements or
defaults, resolve virtual edges to the requested provider (or the default
provider), and fail on any package the policy marks non-buildable.  The
fuel argument bounds the recursion depth. -/
def buildL (repo : List PkgDecl) (nb : List String) (allReqs : List NodeReq) :
    Nat → List DepDecl → Option Edges
  | 0, _ => none
  | _ + 1, [] => some Edges.nil
  | fuel + 1, d :: rest =>
    let tnm? : Option String :=
      match d.virt with
      | some v =>
        match allReqs.findSome?
            (fun r => if providesV repo r.name v then some r.name else none) with
        | some t => some t
        | none => defaultProvider repo v
      | none => some d.pkg
    match tnm? with
    | none => none
    | some tnm =>
      if nb.contains tnm then none
      else
        match findPkg repo tnm with
        | none => none
        | some p =>
          let reqs := allReqs.filter fun r => r.name == tnm
          match bestVersion p.versions (fun v => reqs.all fun r => verOk v r.version) with
          | none => none
          | some ver =>
            let vars := chooseVariants p.variants reqs
            match buildL repo nb allReqs fuel p.deps,
                buildL repo nb allReqs fuel rest with
            | some es, some esr =>
              some (Edges.cons d.types d.virt
                (CSpec.node ⟨tnm, ver, vars⟩ es OSpec.none) esr)
            | _, _ => none

/-- Fresh build of a single package under the given requirements. -/
def buildPkg (repo : List PkgDecl) (nb : List String) (allReqs : List NodeReq)
    (nm : String) : Option CSpec :=
  match buildL repo nb allReqs 32 [⟨dtL, none, nm⟩] with
  | some (Edges.cons _ _ c _) => some c
  | _ => none

/-- Modelled from the spec: variant agreement per matched-variant-selector:
with the sentinel "all" (none), every variant key present in the node being
replaced must have an identical value in the replacement; with an explicit
set, only the named keys must match and other variants may differ freely. -/
def mvAgree (mv : Option (List String)) (s r : CSpec) : Bool :=
  match mv with
  | none =>
      s.nid.variants.all fun kv =>
        lookupVar kv.1 r.nid.variants == lookupVar kv.1 s.nid.variants
  | some ks =>
      ks.all fun k => lookupVar k r.nid.variants == lookupVar k s.nid.variants

/-- Modelled from the spec: one splice-eligibility declaration allows
replacing node s by node r: the target constraint matches s, the
when-constraint (version and variants) matches r, and the variants agree per
the matched-variant-selector. -/
def ruleAllows (rule : SpliceRule) (s r : CSpec) : Bool :=
  nodeSat s.nid rule.target &&
    verOk r.nid.version rule.whenVersion &&
    (rule.whenVariants.all fun kv => lookupVar kv.1 r.nid.variants == some kv.2) &&
    mvAgree rule.matchVariants s r

/-- Modelled from the spec: the eligibility test of the Splice Engine: some
splice-eligibility declaration of the replacement's package allows the
substitution, and every dependency of the replaced node required at link or
run time has a counterpart in the replacement's closure. -/
def eligible (repo : List PkgDecl) (s r : CSpec) : Bool :=
  (match findPkg repo (nodeName r) with
   | some p => p.rules.any fun rule => ruleAllows rule s r
   | none => false) &&
    (linkRunNames s.edges).all fun nm => (nodesOf r).any fun n => nodeName n == nm

mutual
/-- First child name reached through an edge carrying the given virtual
interface name, searching the whole graph. -/
def virtChild (v : String) : CSpec → Option String
  | .node _ es _ => virtChildE v es
def virtChildE (v : String) : Edges → Option String
  | .nil => none
  | .cons _ vn c rest =>
    if vn == some v then some (nodeName c)
    else
      match virtChild v c with
      | some nm => some nm
      | none => virtChildE v rest
end

/-- Modelled from the spec: replacement candidates for one substitution
site: reuse-pool and external specs whose root satisfies the requirement
exactly, followed by a fresh build of the requirement when the policy allows
building it. -/
def replacementsFor (repo : List PkgDecl) (nb : List String) (pool : List CSpec)
    (allReqs : List NodeReq) (r : NodeReq) : List CSpec :=
  pool.filter (fun c => nodeSat c.nid r) ++
    (match buildPkg repo nb allReqs r.name with
     | some c => if nodeSat c.nid r then [c] else []
     | none => [])

/-- Modelled from the spec: resolving one substitution site: find an
eligible replacement (matching the requirement directly by name, or
providing the required virtual interface, in which case the site is the
provider serving that virtual edge) and rewrite the graph through the splice
transform. -/
def spliceSite (repo : List PkgDecl) (nb : List String) (pool : List CSpec)
    (allReqs : List NodeReq) (cur : CSpec) (r : NodeReq) : Option CSpec :=
  (replacementsFor repo nb pool allReqs r).findSome? fun rep =>
    let siteNm : Option String :=
      if (nodesOf cur).any (fun n => nodeName n == r.name) then some r.name
      else
        match findPkg repo (nodeName rep) with
        | some p => p.provides.findSome? fun v => virtChild v cur
        | none => none
    match siteNm with
    | none => none
    | some nm =>
      match (nodesOf cur).find? (fun n => nodeName n == nm) with
      | none => none
      | some site =>
        if eligible repo site rep then some (splice nm rep cur) else none

/-- Final acceptance check of the Splice Engine: the outcome is kept only
when it satisfies the original request. -/
def checkSat (a : ASpec) : Option CSpec → Option CSpec
  | Option.none => none
  | Option.some res => if satisfies res a then some res else none

/-- Modelled from the spec: attempting to splice one approximate reuse
candidate into shape: every unsatisfied requirement of the request marks a
substitution site; the sites are resolved independently and composed into
one rewrite; the outcome must satisfy the original request. -/
def trySpliceCand (repo : List PkgDecl) (nb : List String) (pool : List CSpec)
    (a : ASpec) (cand : CSpec) : Option CSpec :=
  let sites := a.deps.filter fun r => !(nodesOf cand).any fun n => nodeSat n.nid r
  checkSat a
    (sites.foldlM (fun cur r => spliceSite repo nb pool (a.root :: a.deps) cur r) cand)

/-- Modelled from the spec: the Splice Engine pass: try, in pool order,
every reuse or external candidate whose root matches the root requirement,
and return the first successful composed splice. -/
def splicePhase (repo : List PkgDecl) (nb : List String) (pool : List CSpec)
    (a : ASpec) : Option CSpec :=
  (pool.filter fun c => nodeSat c.nid a.root).findSome?
    (trySpliceCand repo nb pool a)

/-- Modelled from the spec: the reuse pool assembled for one resolution:
installed specs when reuse is on, plus declared externals. -/
def poolFor (installed : List CSpec) (pol : Policy) : List CSpec :=
  (if pol.reuse then installed else []) ++ pol.externals

/-- The Splice Engine pass, gated on the automatic-splicing policy switch. -/
def spliceTry (repo : List PkgDecl) (pool : List CSpec) (pol : Policy)
    (a : ASpec) : Option CSpec :=
  if pol.spliceAuto then splicePhase repo pol.nonBuildable pool a else none

/-- The build-from-scratch phase, kept only when it satisfies the request
(the solver oracle returns satisfying assignments only). -/
def freshTry (repo : List PkgDecl) (pol : Policy) (a : ASpec) : Option CSpec :=
  checkSat a (buildPkg repo pol.nonBuildable (a.root :: a.deps) a.root.name)

/-- Modelled from the spec: one resolution call of the Concretizer.  An
exact reuse-pool or external candidate satisfying the whole request is
preferred; otherwise, with automatic splicing enabled, the Splice Engine
rewrites an approximate reuse candidate; otherwise the request is built from
scratch when the policy allows it; otherwise resolution fails with
UnsatisfiableSpecError.  Every returned Spec satisfies the request (the
solver oracle returns satisfying assignments only). -/
def resolve (repo : List PkgDecl) (installed : List CSpec) (pol : Policy)
    (a : ASpec) : Except SpackError CSpec :=
  match (poolFor installed pol).find? (fun c => satisfies c a) with
  | some c => .ok c
  | none =>
    match spliceTry repo (poolFor installed pol) pol a with
    | some c => .ok c
    | none =>
      match freshTry repo pol a with
      | some c => .ok c
      | none => .error .UnsatisfiableSpecError

/-- Boolean variant value true. -/
def vT : VVal := .bool true

/-- Boolean variant value false. -/
def vF : VVal := .bool false

/-- Two typed edges (build-only and link-only) to a literal package, the way
the mock packages separate build-time from link-time requirements. -/
def depBL (nm : String) : List DepDecl := [⟨dtB, none, nm⟩, ⟨dtL, none, nm⟩]

/-- Two typed edges (build-only and link-only) through a virtual interface. -/
def depBLV (v : String) : List DepDecl := [⟨dtB, some v, ""⟩, ⟨dtL, some v, ""⟩]

/-- Modelled from the spec: the splice-z mock package (not in the sources
here): three versions, a compat variant, no dependencies, and a declaration
letting any compat build stand in for any compat build. -/
def pkgZ : PkgDecl :=
  { name := "splice-z"
  , versions := [[1,0,0],[1,0,1],[1,0,2]]
  , variants := [⟨"compat", vT⟩]
  , deps := []
  , provides := []
  , rules := [⟨⟨"splice-z", none, [("compat", vT)]⟩, none, [("compat", vT)], none⟩] }

/-- Modelled from the spec: the splice-h mock package (not in the sources
here): three versions, a compat variant, build and link dependencies on
splice-z, and a compat-for-compat splice declaration. -/
def pkgH : PkgDecl :=
  { name := "splice-h"
  , versions := [[1,0,0],[1,0,1],[1,0,2]]
  , variants := [⟨"compat", vT⟩]
  , deps := depBL "splice-z"
  , provides := []
  , rules := [⟨⟨"splice-h", none, [("compat", vT)]⟩, none, [("compat", vT)], none⟩] }

/-- Modelled from the spec: the splice-t mock package (not in the sources
here): one version, build and link dependencies on splice-h and splice-z. -/
def pkgT : PkgDecl :=
  { name := "splice-t"
  , versions := [[1,0]]
  , variants := [⟨"compat", vT⟩]
  , deps := depBL "splice-h" ++ depBL "splice-z"
  , provides := []
  , rules := [] }

/-- Modelled from the spec: the splice-depends-on-t mock package (not in the
sources here): one version, build and link dependencies on splice-t. -/
def pkgDT : PkgDecl :=
  { name := "splice-depends-on-t"
  , versions := [[1,0]]
  , variants := []
  , deps := depBL "splice-t"
  , provides := []
  , rules := [] }

/-- Modelled from the spec: the depends-on-virtual-with-abi mock package
(not in the sources here): build and link dependencies served through the
virtual-with-abi interface. -/
def pkgDV : PkgDecl :=
  { name := "depends-on-virtual-with-abi"
  , versions := [[1,0]]
  , variants := []
  , deps := depBLV "virtual-with-abi"
  , provides := []
  , rules := [] }

/-- Modelled from the spec: the virtual-abi-1 mock provider (not in the
sources here), spliceable in for the multi provider configured for it. -/
def pkgV1 : PkgDecl :=
  { name := "virtual-abi-1"
  , versions := [[1,0]]
  , variants := []
  , deps := []
  , provides := ["virtual-with-abi"]
  , rules := [⟨⟨"virtual-abi-multi", none, [("abi", .str "one")]⟩, none, [], some []⟩] }

/-- Modelled from the spec: the virtual-abi-2 mock provider (not in the
sources here), spliceable in for the multi provider configured for it. -/
def pkgV2 : PkgDecl :=
  { name := "virtual-abi-2"
  , versions := [[1,0]]
  , variants := []
  , deps := []
  , provides := ["virtual-with-abi"]
  , rules := [⟨⟨"virtual-abi-multi", none, [("abi", .str "two")]⟩, none, [], some []⟩] }

/-- Modelled from the spec: the virtual-abi-multi mock provider (not in the
sources here): an abi variant selecting the implemented interface flavour,
spliceable in for the matching single-flavour provider. -/
def pkgVM : PkgDecl :=
  { name := "virtual-abi-multi"
  , versions := [[1,0]]
  , variants := [⟨"abi", .str "one"⟩]
  , deps := []
  , provides := ["virtual-with-abi"]
  , rules :=
    [ ⟨⟨"virtual-abi-1", none, []⟩, none, [("abi", .str "one")], some []⟩
    , ⟨⟨"virtual-abi-2", none, []⟩, none, [("abi", .str "two")], some []⟩ ] }

/-- Modelled from the spec: the manyvariants mock package (not in the
sources here), with the three can-splice declarations quoted by the test
suite: a star selector on 1.0.1 for 1.0.0, a c-d selector on 2.0.1 variants
for 2.0.0 variants, and an empty selector on 2.0.1 plus-a-plus-b for 2.0.0
c-v1 d-v1. -/
def pkgMV : PkgDecl :=
  { name := "manyvariants"
  , versions := [[1,0,0],[1,0,1],[2,0,0],[2,0,1]]
  , variants := [⟨"a", vF⟩, ⟨"b", vF⟩, ⟨"c", .str "v1"⟩, ⟨"d", .str "v1"⟩]
  , deps := []
  , provides := []
  , rules :=
    [ ⟨⟨"manyvariants", some [1,0,0], []⟩, some [1,0,1], [], none⟩
    , ⟨⟨"manyvariants", some [2,0,0], [("a", vT), ("b", vF)]⟩, some [2,0,1],
        [("a", vF), ("b", vT)], some ["c","d"]⟩
    , ⟨⟨"manyvariants", some [2,0,0], [("c", .str "v1"), ("d", .str "v1")]⟩,
        some [2,0,1], [("a", vT), ("b", vT)], some []⟩ ] }

/-- Modelled from the spec: the depends-on-manyvariants mock package (not in
the sources here). -/
def pkgDM : PkgDecl :=
  { name := "depends-on-manyvariants"
  , versions := [[1,0],[2,0]]
  , variants := []
  , deps := depBL "manyvariants"
  , provides := []
  , rules := [] }

/-- Modelled from the spec: the mock package repository serving the
splicing scenarios. -/
def mockRepo : List PkgDecl :=
  [pkgZ, pkgH, pkgT, pkgDT, pkgDV, pkgV1, pkgV2, pkgVM, pkgMV, pkgDM]

/-- Installed reuse pool obtained by concretizing and installing a list of
requests against the mock repository (the test suite's cache manager). -/
def mkPool (reqs : List ASpec) : List CSpec :=
  reqs.filterMap fun a => buildPkg mockRepo [] (a.root :: a.deps) a.root.name

/-- Empty concrete spec used as a default. -/
def nullSpec : CSpec := .node ⟨"", [], []⟩ .nil .none

/-- Resolution outcome satisfies the request unless it is an error (the
soundness reading of the solver oracle). -/
def soundAgainst (x : Except SpackError CSpec) (a : ASpec) : Bool :=
  match x with
  | .ok c => satisfies c a
  | .error _ => true

/-- Resolution succeeded and the result passes the check. -/
def okWith (x : Except SpackError CSpec) (p : CSpec → Bool) : Bool :=
  match x with
  | .ok c => p c
  | .error _ => false

/-- Resolution succeeded with a result satisfying the request. -/
def okSat (x : Except SpackError CSpec) (a : ASpec) : Bool :=
  okWith x fun c => satisfies c a

/-- Resolution failed with UnsatisfiableSpecError. -/
def isUnsat (x : Except SpackError CSpec) : Bool :=
  match x with
  | .error SpackError.UnsatisfiableSpecError => true
  | _ => false

/-- Both resolutions succeeded, each satisfying its own request, with
distinct results. -/
def pairDistinct (x y : Except SpackError CSpec) (a1 a2 : ASpec) : Bool :=
  match x, y with
  | .ok c1, .ok c2 => satisfies c1 a1 && satisfies c2 a2 && !specBeq c1 c2
  | _, _ => false

/-- The optional spec exists and passes the check. -/
def optWith (x : Option CSpec) (p : CSpec → Bool) : Bool :=
  match x with
  | Option.some c => p c
  | Option.none => false

/-- The node's provenance pointer is set and passes the check. -/
def bspecWith (c : CSpec) (p : CSpec → Bool) : Bool :=
  match c.bspec with
  | OSpec.some b => p b
  | OSpec.none => false

/-- Names of direct children reached through an edge whose dependency-type
set is exactly {build}. -/
def buildOnlyDeps : Edges → List String
  | .nil => []
  | .cons t _ c rest =>
      if buildOnly t then nodeName c :: buildOnlyDeps rest else buildOnlyDeps rest

/-- Scenario A request: splice-z, unconstrained. -/
def aZ : ASpec := ⟨⟨"splice-z", none, []⟩, []⟩

/-- Scenario A reuse pool: splice-z at 1.0.0 with compat, installed. -/
def cacheA : List CSpec := mkPool [⟨⟨"splice-z", some [1,0,0], [("compat", vT)]⟩, []⟩]

/-- Scenario A policy: reuse on, splice-z non-buildable, splicing off. -/
def polA : Policy := ⟨true, ["splice-z"], [], false⟩

/-- Reuse pool of the installed-hash splice scenario. -/
def cacheB1 : List CSpec := mkPool
  [ ⟨⟨"splice-t", some [1], []⟩,
      [⟨"splice-h", some [1,0,0], [("compat", vT)]⟩, ⟨"splice-z", some [1,0,0], []⟩]⟩
  , ⟨⟨"splice-h", some [1,0,2], [("compat", vT)]⟩, [⟨"splice-z", some [1,0,0], []⟩]⟩ ]

/-- Goal request of the installed-hash splice scenario. -/
def goalB1 : ASpec :=
  ⟨⟨"splice-t", some [1], []⟩,
    [⟨"splice-h", some [1,0,2], [("compat", vT)]⟩, ⟨"splice-z", some [1,0,0], []⟩]⟩

/-- Installed-hash scenario policy with splicing disabled. -/
def polB1off : Policy := ⟨true, ["splice-t","splice-h"], [], false⟩

/-- Installed-hash scenario policy with splicing enabled. -/
def polB1on : Policy := ⟨true, ["splice-t","splice-h"], [], true⟩

/-- Reuse pool of the build-splice-node scenario. -/
def cacheB2 : List CSpec := mkPool
  [ ⟨⟨"splice-t", some [1], []⟩,
      [⟨"splice-h", some [1,0,0], [("compat", vT)]⟩,
        ⟨"splice-z", some [1,0,0], [("compat", vT)]⟩]⟩ ]

/-- Goal request of the build-splice-node scenario. -/
def goalB2 : ASpec :=
  ⟨⟨"splice-t", some [1], []⟩,
    [⟨"splice-h", some [1,0,2], [("compat", vT)]⟩,
      ⟨"splice-z", some [1,0,0], [("compat", vT)]⟩]⟩

/-- Build-splice-node scenario policy with splicing disabled. -/
def polB2off : Policy := ⟨true, ["splice-t"], [], false⟩

/-- Build-splice-node scenario policy with splicing enabled. -/
def polB2on : Policy := ⟨true, ["splice-t"], [], true⟩

/-- Reuse pool of the double-splice scenario. -/
def cacheDS : List CSpec := mkPool
  [ ⟨⟨"splice-t", some [1], []⟩,
      [⟨"splice-h", some [1,0,0], [("compat", vT)]⟩,
        ⟨"splice-z", some [1,0,0], [("compat", vT)]⟩]⟩
  , ⟨⟨"splice-h", some [1,0,2], [("compat", vT)]⟩,
      [⟨"splice-z", some [1,0,1], [("compat", vT)]⟩]⟩
  , ⟨⟨"splice-z", some [1,0,2], [("compat", vT)]⟩, []⟩ ]

/-- Goal request of the double-splice scenario. -/
def goalDS : ASpec :=
  ⟨⟨"splice-t", some [1], []⟩,
    [⟨"splice-h", some [1,0,2], [("compat", vT)]⟩,
      ⟨"splice-z", some [1,0,2], [("compat", vT)]⟩]⟩

/-- Double-splice scenario policy with splicing disabled. -/
def polDSoff : Policy := ⟨true, ["splice-t","splice-h","splice-z"], [], false⟩

/-- Double-splice scenario policy with splicing enabled. -/
def polDSon : Policy := ⟨true, ["splice-t","splice-h","splice-z"], [], true⟩

/-- Reuse pool of the virtual splices-in scenario: one install per
single-flavour provider. -/
def cacheV1 : List CSpec := mkPool
  [ ⟨⟨"depends-on-virtual-with-abi", none, []⟩, [⟨"virtual-abi-1", none, []⟩]⟩
  , ⟨⟨"depends-on-virtual-with-abi", none, []⟩, [⟨"virtual-abi-2", none, []⟩]⟩ ]

/-- Virtual scenario goal requesting the multi provider, flavour one. -/
def goalV1a : ASpec :=
  ⟨⟨"depends-on-virtual-with-abi", none, []⟩,
    [⟨"virtual-abi-multi", none, [("abi", .str "one")]⟩]⟩

/-- Virtual scenario goal requesting the multi provider, flavour two. -/
def goalV1b : ASpec :=
  ⟨⟨"depends-on-virtual-with-abi", none, []⟩,
    [⟨"virtual-abi-multi", none, [("abi", .str "two")]⟩]⟩

/-- Virtual scenario policy with splicing enabled. -/
def polV : Policy := ⟨true, ["depends-on-virtual-with-abi"], [], true⟩

/-- Reuse pool of the mirror virtual scenario: one install per multi
flavour. -/
def cacheV2 : List CSpec := mkPool
  [ ⟨⟨"depends-on-virtual-with-abi", none, []⟩,
      [⟨"virtual-abi-multi", none, [("abi", .str "one")]⟩]⟩
  , ⟨⟨"depends-on-virtual-with-abi", none, []⟩,
      [⟨"virtual-abi-multi", none, [("abi", .str "two")]⟩]⟩ ]

/-- Mirror virtual scenario goal requesting provider one. -/
def goalV2a : ASpec :=
  ⟨⟨"depends-on-virtual-with-abi", none, []⟩, [⟨"virtual-abi-1", none, []⟩]⟩

/-- Mirror virtual scenario goal requesting provider two. -/
def goalV2b : ASpec :=
  ⟨⟨"depends-on-virtual-with-abi", none, []⟩, [⟨"virtual-abi-2", none, []⟩]⟩

/-- Reuse pool of the star-selector manyvariants scenario. -/
def cacheM1 : List CSpec := mkPool
  [ ⟨⟨"depends-on-manyvariants", none, []⟩,
      [⟨"manyvariants", some [1,0,0],
        [("a",vT),("b",vT),("c",.str "v1"),("d",.str "v2")]⟩]⟩
  , ⟨⟨"depends-on-manyvariants", none, []⟩,
      [⟨"manyvariants", some [1,0,0],
        [("a",vF),("b",vF),("c",.str "v3"),("d",.str "v3")]⟩]⟩ ]

/-- Star-selector scenario goal matching the first install's variants. -/
def goalM1a : ASpec :=
  ⟨⟨"depends-on-manyvariants", none, []⟩,
    [⟨"manyvariants", some [1,0,1],
      [("a",vT),("b",vT),("c",.str "v1"),("d",.str "v2")]⟩]⟩

/-- Star-selector scenario goal matching the second install's variants. -/
def goalM1b : ASpec :=
  ⟨⟨"depends-on-manyvariants", none, []⟩,
    [⟨"manyvariants", some [1,0,1],
      [("a",vF),("b",vF),("c",.str "v3"),("d",.str "v3")]⟩]⟩

/-- Manyvariants scenario policy with splicing enabled. -/
def polM : Policy := ⟨true, ["depends-on-manyvariants"], [], true⟩

/-- Manyvariants scenario policy with splicing disabled. -/
def polMoff : Policy := ⟨true, ["depends-on-manyvariants"], [], false⟩

/-- Reuse pool of the limited-selector manyvariants scenario. -/
def cacheM2 : List CSpec := mkPool
  [ ⟨⟨"depends-on-manyvariants", some [2,0], []⟩,
      [⟨"manyvariants", some [2,0,0],
        [("a",vT),("b",vF),("c",.str "v3"),("d",.str "v2")]⟩]⟩
  , ⟨⟨"depends-on-manyvariants", some [2,0], []⟩,
      [⟨"manyvariants", some [2,0,0],
        [("a",vF),("b",vF),("c",.str "v1"),("d",.str "v1")]⟩]⟩ ]

/-- Limited-selector goal differing from the first install only in the a and
b variants. -/
def goalM2a : ASpec :=
  ⟨⟨"depends-on-manyvariants", some [2,0], []⟩,
    [⟨"manyvariants", some [2,0,1],
      [("a",vF),("b",vT),("c",.str "v3"),("d",.str "v2")]⟩]⟩

/-- Limited-selector goal served by the second install through the
selector-free declaration. -/
def goalM2b : ASpec :=
  ⟨⟨"depends-on-manyvariants", some [2,0], []⟩,
    [⟨"manyvariants", some [2,0,1],
      [("a",vT),("b",vT),("c",.str "v3"),("d",.str "v3")]⟩]⟩

/-- Reuse pool of the external-splice scenario. -/
def cacheEx : List CSpec := mkPool
  [ ⟨⟨"splice-h", some [1,0,0], []⟩, [⟨"splice-z", some [1,0,0], [("compat", vT)]⟩]⟩
  , ⟨⟨"splice-t", some [1,0], []⟩,
      [⟨"splice-h", some [1,0,1], []⟩, ⟨"splice-z", some [1,0,1], [("compat", vT)]⟩]⟩ ]

/-- Declared external splice-z at 1.0.2 with compat. -/
def extZ : CSpec := .node ⟨"splice-z", [1,0,2], [("compat", vT)]⟩ .nil .none

/-- External-splice scenario policy: everything buildable, external z,
splicing enabled. -/
def polEx : Policy := ⟨true, [], [extZ], true⟩

/-- External-splice scenario goal rooted at splice-h. -/
def goalExA : ASpec :=
  ⟨⟨"splice-h", some [1,0,0], []⟩, [⟨"splice-z", some [1,0,2], []⟩]⟩

/-- External-splice scenario goal rooted at splice-t. -/
def goalExB : ASpec :=
  ⟨⟨"splice-t", some [1,0], []⟩,
    [⟨"splice-h", some [1,0,1], []⟩, ⟨"splice-z", some [1,0,2], []⟩]⟩

/-- Reuse pool of the build-deps-pruning scenario (nothing marked
non-buildable). -/
def cacheBD : List CSpec := mkPool
  [ ⟨⟨"splice-t", some [1,0], []⟩,
      [⟨"splice-h", some [1,0,1], []⟩, ⟨"splice-z", some [1,0,0], []⟩]⟩ ]

/-- Goal of the build-deps-pruning scenario. -/
def goalBD : ASpec :=
  ⟨⟨"splice-t", some [1,0], []⟩,
    [⟨"splice-h", some [1,0,2], []⟩, ⟨"splice-z", some [1,0,0], []⟩]⟩

/-- Build-deps-pruning scenario policy: reuse and splicing on, everything
buildable. -/
def polBD : Policy := ⟨true, [], [], true⟩

/-- Reuse pool of the transitive-splice scenario. -/
def cacheTR : List CSpec := mkPool
  [ ⟨⟨"splice-depends-on-t", some [1,0], []⟩, [⟨"splice-h", some [1,0,1], []⟩]⟩ ]

/-- Goal of the transitive-splice scenario. -/
def goalTR : ASpec :=
  ⟨⟨"splice-depends-on-t", none, []⟩, [⟨"splice-h", some [1,0,2], []⟩]⟩

/-- Transitive-splice scenario policy. -/
def polTR : Policy := ⟨true, ["splice-depends-on-t"], [], true⟩

/-- Pre-splice approximate candidate of the installed-hash scenario. -/
def preB1 : CSpec := cacheB1.headD nullSpec

/-- Installed replacement subtree of the installed-hash scenario. -/
def hRepB1 : CSpec := cacheB1.getD 1 nullSpec

/-- Post-splice result of the installed-hash scenario. -/
def postB1 : CSpec := (resolve mockRepo cacheB1 polB1on goalB1).toOption.getD nullSpec

/-- Node being replaced in the star-selector scenario's first install. -/
def mS1 : CSpec := (findNode (cacheM1.headD nullSpec) "manyvariants").getD nullSpec

/-- Fresh replacement built for the star-selector scenario's second goal. -/
def mR2 : CSpec :=
  (buildPkg mockRepo []
    [⟨"manyvariants", some [1,0,1], [("a",vF),("b",vF),("c",.str "v3"),("d",.str "v3")]⟩]
    "manyvariants").getD nullSpec

/-- Node being replaced in the limited-selector scenario's first install. -/
def mS2 : CSpec := (findNode (cacheM2.headD nullSpec) "manyvariants").getD nullSpec

/-- The star-selector declaration of the manyvariants package. -/
def ruleStar : SpliceRule := ⟨⟨"manyvariants", some [1,0,0], []⟩, some [1,0,1], [], none⟩

/-- The c-d-selector declaration of the manyvariants package. -/
def ruleCD : SpliceRule :=
  ⟨⟨"manyvariants", some [2,0,0], [("a", vT), ("b", vF)]⟩, some [2,0,1],
    [("a", vF), ("b", vT)], some ["c","d"]⟩

/-- A candidate replacement differing from the limited-selector install in
the selected variant c. -/
def mRbadCD : CSpec :=
  .node ⟨"manyvariants", [2,0,1], [("a",vF),("b",vT),("c",.str "v1"),("d",.str "v2")]⟩
    Edges.nil OSpec.none

theorem checkSat_sound (a : ASpec) (x : Option CSpec) (c : CSpec)
    (h : checkSat a x = some c) : satisfies c a = true := by
  cases x with
  | none => simp [checkSat] at h
  | some res =>
    by_cases hs : satisfies res a = true
    · have he : checkSat a (some res) = some res := by simp [checkSat, hs]
      rw [he] at h
      injection h with h
      subst h
      exact hs
    · have he : checkSat a (some res) = none := by simp [checkSat, hs]
      rw [he] at h
      exact Option.noConfusion h

theorem trySpliceCand_sound (repo : List PkgDecl) (nb : List String)
    (pool : List CSpec) (a : ASpec) (cand c : CSpec)
    (h : trySpliceCand repo nb pool a cand = some c) : satisfies c a = true := by
  unfold trySpliceCand at h
  exact checkSat_sound a _ c h

theorem splicePhase_sound (repo : List PkgDecl) (nb : List String)
    (pool : List CSpec) (a : ASpec) (c : CSpec)
    (h : splicePhase repo nb pool a = some c) : satisfies c a = true := by
  unfold splicePhase at h
  obtain ⟨l1, x, l2, -, hx, -⟩ := List.findSome?_eq_some_iff.mp h
  exact trySpliceCand_sound repo nb pool a x c hx

theorem spliceTry_sound (repo : List PkgDecl) (pool : List CSpec) (pol : Policy)
    (a : ASpec) (c : CSpec)
    (h : spliceTry repo pool pol a = some c) : satisfies c a = true := by
  unfold spliceTry at h
  by_cases hA : pol.spliceAuto = true
  · rw [if_pos hA] at h
    exact splicePhase_sound _ _ _ _ _ h
  · rw [if_neg hA] at h
    exact Option.noConfusion h

theorem freshTry_sound (repo : List PkgDecl) (pol : Policy) (a : ASpec) (c : CSpec)
    (h : freshTry repo pol a = some c) : satisfies c a = true :=
  checkSat_sound a _ c h

theorem resolve_ok_sat (repo : List PkgDecl) (installed : List CSpec)
    (pol : Policy) (a : ASpec) (c : CSpec)
    (h : resolve repo installed pol a = .ok c) : satisfies c a = true := by
  unfold resolve at h
  split at h
  · next c1 hfind =>
    injection h with h
    subst h
    have hp := List.find?_some hfind
    simpa using hp
  · next hfind =>
    split at h
    · next c2 hspl =>
      injection h with h
      subst h
      exact spliceTry_sound _ _ _ _ _ hspl
    · next hspl =>
      split at h
      · next c3 hb =>
        injection h with h
        subst h
        exact freshTry_sound _ _ _ _ hb
      · exact Except.noConfusion h

theorem spliceEdges_noBuild (nm : String) (rep : CSpec) :
    (es : Edges) → noBuildOnlyE (spliceEdges nm rep es) = true
  | .nil => by simp [spliceEdges, noBuildOnlyE]
  | .cons t v c rest => by
    cases hb : buildOnly t
    · simp [spliceEdges, hb, noBuildOnlyE, spliceEdges_noBuild nm rep rest]
    · simp [spliceEdges, hb, spliceEdges_noBuild nm rep rest]

mutual
theorem splice_goodS (nm : String) (rep : CSpec) (hr : goodS rep = true) :
    (c : CSpec) → goodS c = true → goodS (splice nm rep c) = true
  | .node i es b, h => by
    have hes : goodE es = true := by
      have h2 := h
      simp [goodS, Bool.and_eq_true] at h2
      exact h2.2
    cases hev : edgesHaveNode nm es
    · simpa [splice, hev] using h
    · have h1 := spliceEdges_noBuild nm rep es
      have h2 := splice_goodE nm rep hr es hes
      simp [splice, hev, goodS, h1, h2]
theorem splice_goodE (nm : String) (rep : CSpec) (hr : goodS rep = true) :
    (es : Edges) → goodE es = true → goodE (spliceEdges nm rep es) = true
  | .nil, _ => by simp [spliceEdges, goodE]
  | .cons t v c rest, h => by
    have hc : goodS c = true := by
      have h2 := h
      simp [goodE, Bool.and_eq_true] at h2
      exact h2.1
    have hrest : goodE rest = true := by
      have h2 := h
      simp [goodE, Bool.and_eq_true] at h2
      exact h2.2
    cases hb : buildOnly t
    · cases hnm : (nodeName c == nm)
      · simp [spliceEdges, hb, hnm, goodE, splice_goodS nm rep hr c hc,
          splice_goodE nm rep hr rest hrest]
      · simp [spliceEdges, hb, hnm, goodE, hr, splice_goodE nm rep hr rest hrest]
    · simp [spliceEdges, hb, splice_goodE nm rep hr rest hrest]
end

theorem lookup_mem : (l : List (String × VVal)) → (k : String) → (v : VVal) →
    lookupVar k l = some v → (k, v) ∈ l
  | [], _, _, h => by simp [lookupVar] at h
  | (k2, v2) :: rest, k, v, h => by
    cases hk : (k == k2)
    · simp [lookupVar, hk] at h
      exact List.mem_cons_of_mem _ (lookup_mem rest k v h)
    · have hke : k = k2 := eq_of_beq hk
      simp [lookupVar, hk] at h
      subst hke
      subst h
      exact List.mem_cons_self _ _

theorem lookup_of_mem : (l : List (String × VVal)) → (kv : String × VVal) → kv ∈ l →
    ∃ w, lookupVar kv.1 l = some w
  | [], kv, h => absurd h (List.not_mem_nil kv)
  | (k2, v2) :: rest, kv, h => by
    cases hk : (kv.1 == k2)
    · have hmem : kv ∈ rest := by
        cases List.mem_cons.mp h with
        | inl he =>
          exfalso
          rw [he] at hk
          simp at hk
        | inr hm => exact hm
      obtain ⟨w, hw⟩ := lookup_of_mem rest kv hmem
      exact ⟨w, by simp [lookupVar, hk, hw]⟩
    · exact ⟨v2, by simp [lookupVar, hk]⟩

theorem mvAll_false (l rv : List (String × VVal)) (k : String) (v : VVal)
    (h1 : lookupVar k l = some v) (h2 : lookupVar k rv ≠ some v) :
    (l.all fun kv => lookupVar kv.1 rv == lookupVar kv.1 l) = false := by
  cases hall : l.all fun kv => lookupVar kv.1 rv == lookupVar kv.1 l
  · rfl
  · exfalso
    have hx : (lookupVar k rv == lookupVar k l) = true :=
      List.all_eq_true.mp hall (k, v) (lookup_mem l k v h1)
    rw [h1] at hx
    exact h2 (eq_of_beq hx)

theorem mvAll_true (l rv : List (String × VVal))
    (h : ∀ k v, lookupVar k l = some v → lookupVar k rv = some v) :
    (l.all fun kv => lookupVar kv.1 rv == lookupVar kv.1 l) = true := by
  refine List.all_eq_true.mpr ?_
  intro kv hkv
  obtain ⟨w, hw⟩ := lookup_of_mem l kv hkv
  show (lookupVar kv.1 rv == lookupVar kv.1 l) = true
  rw [hw, h kv.1 w hw]
  exact beq_self_eq_true _

/-- C1: every concrete Spec produced by resolving an abstract Spec satisfies
it; in particular the unconstrained splice-z request over a pool holding
only a non-buildable installed splice-z resolves, and the result satisfies
the request. -/
theorem claim_C1 :
    (∀ (repo : List PkgDecl) (installed : List CSpec) (pol : Policy) (a : ASpec),
        soundAgainst (resolve repo installed pol a) a = true) ∧
    okSat (resolve mockRepo cacheA polA aZ) aZ = true := by
  constructor
  · intro repo installed pol a
    cases hr : resolve repo installed pol a with
    | ok c => simpa [soundAgainst] using resolve_ok_sat _ _ _ _ _ hr
    | error e => simp [soundAgainst]
  · decide

/-- C2: when non-buildable policy rules out every exact match and no pool or
external candidate matches exactly, resolution raises UnsatisfiableSpecError
with splicing disabled and succeeds, satisfying the request, with splicing
enabled (installed-hash and build-splice-node scenarios). -/
theorem claim_C2 :
    isUnsat (resolve mockRepo cacheB1 polB1off goalB1) = true ∧
    okSat (resolve mockRepo cacheB1 polB1on goalB1) goalB1 = true ∧
    isUnsat (resolve mockRepo cacheB2 polB2off goalB2) = true ∧
    okSat (resolve mockRepo cacheB2 polB2on goalB2) goalB2 = true := by
  refine ⟨by decide, by decide, by decide, by decide⟩

/-- C3: after a splice the rewritten nodes carry no build-only edges (the
splice rewrite preserves and establishes the pruning invariant and emits no
build-only edge), while the pre-splice build-spec graph still has its
build-only dependencies on splice-h and splice-z. -/
theorem claim_C3 :
    (∀ (nm : String) (rep c : CSpec),
        goodS rep = true → goodS c = true → goodS (splice nm rep c) = true) ∧
    (∀ (nm : String) (rep : CSpec) (es : Edges),
        noBuildOnlyE (spliceEdges nm rep es) = true) ∧
    okWith (resolve mockRepo cacheBD polBD goalBD) (fun c =>
      goodS c && c.bspec.isSet &&
        bspecWith c fun b =>
          (buildOnlyDeps b.edges).contains "splice-h" &&
            (buildOnlyDeps b.edges).contains "splice-z") = true :=
  ⟨fun nm rep c hr hc => splice_goodS nm rep hr c hc,
   fun nm rep es => spliceEdges_noBuild nm rep es,
   by decide⟩

/-- C3 witness: the pruning invariant holds on a concrete splice. -/
theorem claim_C3_witness : goodS (splice "splice-h" extZ preB1) = true :=
  claim_C3.1 "splice-h" extZ preB1 (by decide) (by decide)

/-- C4: under the sentinel all selector, a rule never allows a replacement
with any differing variant, and variant agreement holds whenever every
variant key of the replaced node has an identical value in the replacement;
both star-selector goals resolve through splicing, and the mismatched pair
is ineligible. -/
theorem claim_C4 :
    (∀ (rule : SpliceRule) (s r : CSpec) (k : String) (v : VVal),
        rule.matchVariants = none →
        lookupVar k s.nid.variants = some v →
        lookupVar k r.nid.variants ≠ some v →
        ruleAllows rule s r = false) ∧
    (∀ (s r : CSpec),
        (∀ k v, lookupVar k s.nid.variants = some v →
          lookupVar k r.nid.variants = some v) →
        mvAgree none s r = true) ∧
    okSat (resolve mockRepo cacheM1 polM goalM1a) goalM1a = true ∧
    okSat (resolve mockRepo cacheM1 polM goalM1b) goalM1b = true ∧
    eligible mockRepo mS1 mR2 = false := by
  refine ⟨?_, ?_, by decide, by decide, by decide⟩
  · intro rule s r k v hmv h1 h2
    have hagree : mvAgree rule.matchVariants s r = false := by
      rw [hmv]
      simpa [mvAgree] using mvAll_false s.nid.variants r.nid.variants k v h1 h2
    simp [ruleAllows, hagree]
  · intro s r h
    simpa [mvAgree] using mvAll_true s.nid.variants r.nid.variants h

/-- C4 witness: the star rule rejects the replacement whose variant a
differs from the replaced node's. -/
theorem claim_C4_witness : ruleAllows ruleStar mS1 mR2 = false :=
  claim_C4.1 ruleStar mS1 mR2 "a" vT rfl (by decide) (by decide)

/-- C5: under an explicit selector only the named variant keys must agree,
other variants may differ freely; the c-d-selector scenario resolves both
goals, and a replacement differing in variant c is rejected. -/
theorem claim_C5 :
    (∀ (ks : List String) (s r : CSpec),
        mvAgree (some ks) s r = true ↔
          ∀ k ∈ ks, lookupVar k r.nid.variants = lookupVar k s.nid.variants) ∧
    okSat (resolve mockRepo cacheM2 polM goalM2a) goalM2a = true ∧
    okSat (resolve mockRepo cacheM2 polM goalM2b) goalM2b = true ∧
    ruleAllows ruleCD mS2 mRbadCD = false := by
  refine ⟨?_, by decide, by decide, by decide⟩
  intro ks s r
  simp [mvAgree, List.all_eq_true]

/-- C5 witness: agreement on an explicit selector follows from equal lookups
on the named keys. -/
theorem claim_C5_witness : mvAgree (some ["c","d"]) extZ extZ = true :=
  (claim_C5.1 ["c","d"] extZ extZ).mpr fun _ _ => rfl

/-- C6: splicing a dependency two levels below the root sets the build-spec
pointer on the root and on the intermediate directly spliced node, leaves no
build-type edge anywhere on the rewritten path, and attaches build-spec
pointers to exactly the root and that intermediate node. -/
theorem claim_C6 :
    okWith (resolve mockRepo cacheTR polTR goalTR) (fun c =>
      satisfies c goalTR && c.bspec.isSet &&
        optWith (findNode c "splice-t") (fun t => t.bspec.isSet) &&
        (((nodesOf c).filter fun n => n.bspec.isSet).map nodeName
            == ["splice-depends-on-t", "splice-t"]) &&
        ((nodesOf c).all fun n => !n.bspec.isSet || (countBuildFlag n.edges == 0)))
      = true := by decide

/-- C7: virtual-provider candidate matching is scoped per consuming edge:
each of the two flavour requests resolves independently to its own distinct
result satisfying its own request, in both mirror scenarios. -/
theorem claim_C7 :
    pairDistinct (resolve mockRepo cacheV1 polV goalV1a)
        (resolve mockRepo cacheV1 polV goalV1b) goalV1a goalV1b = true ∧
    pairDistinct (resolve mockRepo cacheV2 polV goalV2a)
        (resolve mockRepo cacheV2 polV goalV2b) goalV2a goalV2b = true := by
  refine ⟨by decide, by decide⟩

/-- C8: a resolution with two independent substitution sites succeeds as one
call, its result satisfies the whole request, and the intermediate spliced
node reflects both substitutions (it carries a build-spec pointer and its
own splice-z child is the replacement at 1.0.2). -/
theorem claim_C8 :
    okSat (resolve mockRepo cacheDS polDSon goalDS) goalDS = true ∧
    okWith (resolve mockRepo cacheDS polDSon goalDS) (fun c =>
      optWith (findNode c "splice-h") fun h =>
        h.bspec.isSet && optWith (findNode h "splice-z")
          (fun z => nodeSat z.nid ⟨"splice-z", some [1,0,2], []⟩)) = true := by
  refine ⟨by decide, by decide⟩

/-- C9: the digest of every node re-derives from its identity attributes and
its children's digests; a parent digest over the same frame changes exactly
when the child digest changes; in the installed-hash scenario the spliced
root's digest differs from the pre-splice digest while the splice-z subtree
and the replacement subtree keep theirs, and the provenance pointer holds the
pre-splice candidate. -/
theorem claim_C9 :
    (∀ (i : NodeId) (es : Edges) (b : OSpec),
        specHash (CSpec.node i es b) = CSpec.node i (hashE es) OSpec.none) ∧
    (∀ (t : DepTypes) (v : Option String) (c : CSpec) (rest : Edges),
        hashE (Edges.cons t v c rest) = Edges.cons t v (specHash c) (hashE rest)) ∧
    (∀ (i : NodeId) (t : DepTypes) (v : Option String) (c c2 : CSpec)
        (rest : Edges) (b b2 : OSpec),
        (specHash (CSpec.node i (Edges.cons t v c rest) b) =
            specHash (CSpec.node i (Edges.cons t v c2 rest) b2)) ↔
          specHash c = specHash c2) ∧
    (!specBeq (specHash postB1) (specHash preB1)) = true ∧
    optWith (findNode postB1 "splice-z") (fun x =>
      optWith (findNode preB1 "splice-z") fun y =>
        specBeq (specHash x) (specHash y)) = true ∧
    optWith (findNode postB1 "splice-h")
      (fun x => specBeq (specHash x) (specHash hRepB1)) = true ∧
    bspecWith postB1 (fun b => specBeq b preB1) = true := by
  refine ⟨?_, ?_, ?_, by decide, by decide, by decide, by decide⟩
  · intro i es b
    simp [specHash]
  · intro t v c rest
    simp [hashE]
  · intro i t v c c2 rest b b2
    simp [specHash, hashE, CSpec.node.injEq, Edges.cons.injEq]

/-- C9 witness: the digest ignores provenance and is determined by the child
digest within a fixed frame. -/
theorem claim_C9_witness :
    specHash (CSpec.node ⟨"p", [1], []⟩ (Edges.cons dtL none extZ Edges.nil) OSpec.none) =
      specHash (CSpec.node ⟨"p", [1], []⟩ (Edges.cons dtL none extZ Edges.nil)
        (OSpec.some extZ)) :=
  (claim_C9.2.2.1 ⟨"p", [1], []⟩ dtL none extZ extZ Edges.nil OSpec.none
    (OSpec.some extZ)).mpr rfl

/-- C10: with reuse and automatic splicing enabled and nothing marked
non-buildable, a near-match reuse preference alone triggers a splice: the
resolution succeeds, the result satisfies the request, its build-spec
pointer is set, the build spec keeps build dependencies on splice-h and
splice-z, the result has no build-flagged edge; the external scenario goals
resolve likewise with no non-buildable package. -/
theorem claim_C10 :
    okWith (resolve mockRepo cacheBD polBD goalBD) (fun c =>
      satisfies c goalBD && c.bspec.isSet &&
        bspecWith c (fun b =>
          (topBuildDeps b.edges).contains "splice-h" &&
            (topBuildDeps b.edges).contains "splice-z") &&
        (countBuildFlag c.edges == 0)) = true ∧
    okSat (resolve mockRepo cacheEx polEx goalExA) goalExA = true ∧
    okSat (resolve mockRepo cacheEx polEx goalExB) goalExB = true := by
  refine ⟨by decide, by decide, by decide⟩
